import Mathlib

/-!
Verification development for the commute-notification bot (`src/main.py`).

Instants are modelled as natural numbers of seconds since an epoch; a day
is 86400 seconds, matching `datetime` arithmetic at second resolution
(`datetime.combine(now.date(), t)` has zero sub-minute fields, while `now`
may fall anywhere inside a second).  Strings are Lean `String`s; Python
f-string interpolation of `None` and of numbers is modelled explicitly.
-/

namespace TrafficBot

/-- Seconds in one day. -/
def daySecs : Nat := 86400

/-- ASCII decimal-digit test, the `\d` class used by `strptime` patterns
(restricted to ASCII, which is what the bot's prompts solicit). -/
def isDigitC (c : Char) : Bool := 48 ≤ c.toNat && c.toNat ≤ 57

/-- Numeric value of an ASCII digit character. -/
def dval (c : Char) : Nat := c.toNat - 48

/-- `datetime.strptime(s, "%H:%M")` from `src/main.py` (lines 94, 171, 224, 237):
`%H` matches `2[0-3]|[0-1]\d|\d` and `%M` matches `[0-5]\d|\d`, separated by a
literal colon, and the whole string must be consumed ("unconverted data
remains" otherwise).  Returns the parsed (hour, minute) or `none` for the
`ValueError` case. -/
def parseHHMM (s : String) : Option (Nat × Nat) :=
  match s.data with
  | [a, ':', b] =>
      if isDigitC a && isDigitC b then some (dval a, dval b) else none
  | [a, ':', b, c] =>
      if isDigitC a && isDigitC b && isDigitC c
          && decide (10 * dval b + dval c ≤ 59) then
        some (dval a, 10 * dval b + dval c)
      else none
  | [a, b, ':', c] =>
      if isDigitC a && isDigitC b && isDigitC c
          && decide (10 * dval a + dval b ≤ 23) then
        some (10 * dval a + dval b, dval c)
      else none
  | [a, b, ':', c, d] =>
      if isDigitC a && isDigitC b && isDigitC c && isDigitC d
          && decide (10 * dval a + dval b ≤ 23)
          && decide (10 * dval c + dval d ≤ 59) then
        some (10 * dval a + dval b, 10 * dval c + dval d)
      else none
  | _ => none

/-- One decimal digit character (used to model `strftime` zero-padded fields). -/
def digitChar (n : Nat) : Char :=
  match n % 10 with
  | 0 => '0' | 1 => '1' | 2 => '2' | 3 => '3' | 4 => '4'
  | 5 => '5' | 6 => '6' | 7 => '7' | 8 => '8' | _ => '9'

/-- `t.strftime("%H:%M")`: the zero-padded five-character clock label. -/
def fmtHHMM (h m : Nat) : String :=
  ⟨[digitChar (h / 10), digitChar (h % 10), ':', digitChar (m / 10), digitChar (m % 10)]⟩

/-- `(datetime.now() + timedelta(minutes=k)).strftime("%H:%M")` given the total
minutes-since-midnight of the resulting instant. -/
def fmtClock (totalMin : Nat) : String := fmtHHMM (totalMin / 60 % 24) (totalMin % 60)

/-- The fire-time computation of `add_job` (`src/main.py` lines 99-102):
`scheduled_time = datetime.combine(now.date(), dept_time)` and
`if scheduled_time < now: scheduled_time += timedelta(days=1)`.
`todSec` is the stored time-of-day in seconds. -/
def rollForward (now todSec : Nat) : Nat :=
  let scheduled := now / daySecs * daySecs + todSec
  if scheduled < now then scheduled + daySecs else scheduled

/-- A pending APScheduler job: its string id and its `run_date` in seconds. -/
structure Job where
  name : String
  runDate : Nat
deriving DecidableEq

/-- `add_job` (`src/main.py` lines 92-104): parse the stored `"%H:%M"` string
(on `ValueError` log and add nothing), roll the time forward past `now` if
needed, and add a one-shot `'date'` job under the given id.  Returns the job
added, if any. -/
def add_job (now : Nat) (deptTimeStr jobName : String) : Option Job :=
  (parseHHMM deptTimeStr).map fun hm =>
    ⟨jobName, rollForward now (hm.1 * 3600 + hm.2 * 60)⟩

/-- The `user_settings` dictionary: presence of each key is an `Option`.
Coordinates carry opaque integer payloads (no arithmetic is ever done on
them); addresses and times are the stored strings. -/
structure Settings where
  home_lat : Option Int := none
  home_lon : Option Int := none
  home_address : Option String := none
  chat_id : Option Nat := none
  work_lat : Option Int := none
  work_lon : Option Int := none
  work_address : Option String := none
  depart_home : Option String := none
  depart_work : Option String := none
deriving DecidableEq

/-- The empty `user_settings` dictionary (`load_settings` with no file). -/
def emptySettings : Settings := {}

/-- `pre_home_time` / `pre_work_time` (`src/main.py` lines 171, 176):
`(datetime.strptime(t, "%H:%M") - timedelta(minutes=30)).time().strftime("%H:%M")`,
i.e. the stored time-of-day minus 30 minutes, wrapping modulo one day, then
re-formatted zero-padded. -/
def previewStr (hm : Nat × Nat) : String :=
  let total := (hm.1 * 60 + hm.2 + 1440 - 30) % 1440
  fmtHHMM (total / 60) (total % 60)

/-- Jobs contributed by one leg in `schedule_notifications` (`src/main.py`
lines 168-177): if the departure key is present, add the departure job from
the stored string, then compute the preview string (line 171 / 176: this
`strptime` call is outside any `try`, so an unparseable stored string raises
out of `schedule_notifications`, modelled as `none`) and add the preview job. -/
def legJobs (now : Nat) (deptTimeStr : Option String) (depName preName : String) :
    Option (List Job) :=
  match deptTimeStr with
  | none => some []
  | some str =>
    match parseHHMM str with
    | none => none
    | some hm =>
      some ((add_job now str depName).toList
        ++ (add_job now (previewStr hm) preName).toList)

/-- `schedule_notifications` (`src/main.py` lines 86-179): create a fresh
`BackgroundScheduler`, add the Home→Work jobs when `depart_home` is set and
the Work→Home jobs when `depart_work` is set, and start the scheduler.
The result is the new scheduler's job list (`none` models the uncaught
`ValueError` of lines 171/176 on a corrupt stored string). -/
def schedule_notifications (now : Nat) (s : Settings) : Option (List Job) :=
  match legJobs now s.depart_home "home_departure" "home_pre_departure",
        legJobs now s.depart_work "work_departure" "work_pre_departure" with
  | some hj, some wj => some (hj ++ wj)
  | _, _ => none

/-- The set of live schedulers: each call to `schedule_notifications`
constructs and starts a new `BackgroundScheduler` (line 88 and 179) and the
previous ones are never shut down, so the system state is the list of all
started schedulers' pending-job lists. -/
def rebuild (schedulers : List (List Job)) (now : Nat) (s : Settings) :
    Option (List (List Job)) :=
  (schedule_notifications now s).map fun js => schedulers ++ [js]

/-- Firing a pending job: every job is added with the one-shot `'date'`
trigger (line 103), which APScheduler removes after its single run, and the
four job bodies (lines 107-165) only fetch data, compose and send a message —
none of them calls `add_job` or touches any scheduler — so firing removes the
job from its scheduler and inserts nothing. -/
def fire (sch : List Job) (jobName : String) : List Job :=
  sch.filter fun j => !(j.name == jobName)

/-- `main` at startup (`src/main.py` lines 254-276): `load_settings()` reads
the durable record if the file exists (else leaves `{}`), then only registers
conversation handlers and starts polling — `schedule_notifications` is never
invoked at startup, so no scheduler exists and no job is pending.  The
result is the loaded settings paired with the (empty) list of schedulers. -/
def main_startup (store : Option Settings) : Settings × List (List Job) :=
  (store.getD emptySettings, [])

/-! ### External data clients (`get_weather`, `get_travel_time`) -/

/-- Outcome of one weather HTTP attempt: a 200 response whose body yields
`main.temp`, `main.humidity` and `weather[0].description`; a non-200 status;
or a raised exception (transport error, timeout, unparseable body). -/
inductive WAttempt where
  | ok (temp humidity : Int) (desc : String)
  | bad
  | exn
deriving DecidableEq

/-- Outcome of one distance-matrix HTTP attempt: top-level `status == "OK"`
with element `status == "OK"` and a `duration_in_traffic.value` in seconds;
a bad top-level status; a bad element status; or a raised exception. -/
inductive TAttempt where
  | ok (durationSec : Nat)
  | topBad
  | elemBad
  | exn
deriving DecidableEq

/-- `True` on any attempt outcome that advances the retry counter. -/
def wFail : WAttempt → Bool
  | .ok .. => false
  | _ => true

/-- `True` on any attempt outcome that advances the travel retry counter. -/
def tFail : TAttempt → Bool
  | .ok _ => false
  | _ => true

/-- The result tuple of `get_weather`: `(temperature, humidity,
chance_of_rain, weather_desc)`, with `None` fields on failure. -/
structure WeatherOut where
  temp : Option Int
  humidity : Option Int
  rain : Option Nat
  desc : String
deriving DecidableEq

/-- Bool substring check on character lists (Python's `in` on `str`). -/
def isPrefixCheck : List Char → List Char → Bool
  | [], _ => true
  | _ :: _, [] => false
  | a :: as, b :: bs => a == b && isPrefixCheck as bs

/-- Bool substring check: does `pat` occur contiguously inside `s`? -/
def isInfixCheck (pat : List Char) : List Char → Bool
  | [] => pat.isEmpty
  | b :: bs => isPrefixCheck pat (b :: bs) || isInfixCheck pat bs

/-- Python `pat in s` for strings. -/
def strContains (s pat : String) : Bool := isInfixCheck pat.data s.data

/-- ASCII lower-casing of one character (`str.lower()` restricted to the
ASCII range weather descriptions use). -/
def lowerChar (c : Char) : Char :=
  if 65 ≤ c.toNat && c.toNat ≤ 90 then Char.ofNat (c.toNat + 32) else c

/-- `s.lower()` on ASCII text. -/
def lowerStr (s : String) : String := ⟨s.data.map lowerChar⟩

/-- Line 53 of `src/main.py`: `100 if "rain" in weather_desc.lower() else 0`. -/
def rainPctOf (desc : String) : Nat :=
  if strContains (lowerStr desc) "rain" then 100 else 0

/-- The `while attempt < retries` loop of `get_weather` (lines 42-60):
`resp i` is the outcome of the `i`-th attempt, `remaining` the attempts left. -/
def runWeather (resp : Nat → WAttempt) : Nat → Nat → WeatherOut
  | _, 0 => ⟨none, none, none, "Unable to fetch weather data"⟩
  | attempt, remaining + 1 =>
    match resp attempt with
    | .ok t h d => ⟨some t, some h, some (rainPctOf d), d⟩
    | .bad => runWeather resp (attempt + 1) remaining
    | .exn => runWeather resp (attempt + 1) remaining

/-- `get_weather` (`src/main.py` lines 40-60) with `retries=3`, as a function
of the provider's successive attempt outcomes.  Exceptions are caught inside
the loop, so the function always returns a tuple, never raises. -/
def get_weather (resp : Nat → WAttempt) : WeatherOut := runWeather resp 0 3

/-- The `while attempt < retries` loop of `get_travel_time` (lines 65-84). -/
def runTravel (resp : Nat → TAttempt) : Nat → Nat → Option Nat
  | _, 0 => none
  | attempt, remaining + 1 =>
    match resp attempt with
    | .ok dur => some (dur / 60)
    | .topBad => runTravel resp (attempt + 1) remaining
    | .elemBad => runTravel resp (attempt + 1) remaining
    | .exn => runTravel resp (attempt + 1) remaining

/-- `get_travel_time` (`src/main.py` lines 62-84) with `retries=3`: on the
first OK attempt returns `int(duration_in_traffic / 60)` minutes, after three
failed attempts returns `None`; exceptions are caught inside the loop. -/
def get_travel_time (resp : Nat → TAttempt) : Option Nat := runTravel resp 0 3

/-! ### Message composition (the four job bodies, lines 107-165) -/

/-- Python truthiness of `minutes` (`None` and `0` are falsy). -/
def pyTruthy : Option Nat → Bool
  | none => false
  | some n => n != 0

/-- f-string interpolation of the `minutes` variable (`str(None) = "None"`). -/
def pyOptNat : Option Nat → String
  | none => "None"
  | some n => toString n

/-- f-string interpolation of an optional numeric weather field. -/
def pyOptInt : Option Int → String
  | none => "None"
  | some n => toString n

/-- The `weather[2] > 0` test guarding the rain tip; reachable only with all
weather fields present, since `get_weather` returns all-or-nothing. -/
def rainPositive (w : WeatherOut) : Bool := 0 < w.rain.getD 0

/-- Body of `job_departure_home` (lines 107-120) as a pure function of the
wall-clock minutes-since-midnight at firing, the `get_travel_time` result and
the `get_weather` result; returns the composed message text. -/
def job_departure_home_msg (nowMin : Nat) (minutes : Option Nat) (w : WeatherOut) : String :=
  let arrival := if pyTruthy minutes then fmtClock (nowMin + minutes.getD 0) else "unknown"
  let base := "Time to go! Expect a " ++ pyOptNat minutes
    ++ " minute drive to Work. Arrival is expected at " ++ arrival ++ ".\n"
  if w.temp.isSome then
    base ++ ("Weather: " ++ pyOptInt w.temp ++ "°C, " ++ w.desc ++ ", Humidity: "
        ++ pyOptInt w.humidity ++ "%, Chance of rain: " ++ pyOptNat w.rain ++ "%.")
      ++ (if rainPositive w then " Tip: Wear a waterproof jacket/umbrella." else "")
  else
    base ++ "Weather data unavailable."

/-- Body of `job_pre_departure_home` (lines 122-135): `label` is the verbatim
stored `user_settings['depart_home']` string. -/
def job_pre_departure_home_msg (label : String) (minutes : Option Nat) (w : WeatherOut) : String :=
  let base := "Plan to leave by " ++ label ++ " to Work.\n"
    ++ "Predicted travel time: " ++ pyOptNat minutes ++ " minutes.\n"
  if w.temp.isSome then
    base ++ ("Weather: " ++ pyOptInt w.temp ++ "°C, " ++ w.desc ++ ", Humidity: "
        ++ pyOptInt w.humidity ++ "%, Chance of rain: " ++ pyOptNat w.rain ++ "%.")
      ++ (if rainPositive w then "\nRemember to bring waterproof gear." else "")
  else
    base ++ "\nWeather data unavailable."

/-- Body of `job_departure_work` (lines 139-151). -/
def job_departure_work_msg (nowMin : Nat) (minutes : Option Nat) (w : WeatherOut) : String :=
  let arrival := if pyTruthy minutes then fmtClock (nowMin + minutes.getD 0) else "unknown"
  let base := "Time to go! Expect a " ++ pyOptNat minutes
    ++ " minute drive to Home. Arrival is expected at " ++ arrival ++ ".\n"
  if w.temp.isSome then
    base ++ ("Weather: " ++ pyOptInt w.temp ++ "°C, " ++ w.desc ++ ", Humidity: "
        ++ pyOptInt w.humidity ++ "%, Chance of rain: " ++ pyOptNat w.rain ++ "%.")
      ++ (if rainPositive w then " Tip: Wear waterproof clothing." else "")
  else
    base ++ "Weather data unavailable."

/-- Body of `job_pre_departure_work` (lines 153-165). -/
def job_pre_departure_work_msg (label : String) (minutes : Option Nat) (w : WeatherOut) : String :=
  let base := "Plan to leave by " ++ label ++ " to Home.\n"
    ++ "Predicted travel time: " ++ pyOptNat minutes ++ " minutes.\n"
  if w.temp.isSome then
    base ++ ("Weather: " ++ pyOptInt w.temp ++ "°C, " ++ w.desc ++ ", Humidity: "
        ++ pyOptInt w.humidity ++ "%, Chance of rain: " ++ pyOptNat w.rain ++ "%.")
      ++ (if rainPositive w then "\nRemember your waterproof gear." else "")
  else
    base ++ "\nWeather data unavailable."

/-! ### Setup conversation handlers (departure-time steps) -/

/-- The `ConversationHandler` states of `src/main.py` line 16, plus `END`. -/
inductive ConvState where
  | HOME
  | WORK
  | DEPART_HOME
  | DEPART_WORK
  | ENDED
deriving DecidableEq

/-- Observable outcome of one handler step: next state, the (possibly
updated) `user_settings`, the reply text sent back, whether `save_settings()`
was called, and whether `schedule_notifications` was triggered. -/
structure StepOut where
  state : ConvState
  settings : Settings
  reply : String
  saved : Bool
  scheduled : Bool
deriving DecidableEq

/-- `depart_home_time` (`src/main.py` lines 220-231): parse the message text
with `strptime "%H:%M"`; on success store the verbatim text under
`depart_home`, reply, persist, advance to `DEPART_WORK`; on `ValueError`
reply with the format-error prompt and stay in `DEPART_HOME`. -/
def depart_home_time (text : String) (s : Settings) : StepOut :=
  match parseHHMM text with
  | some _ =>
    ⟨.DEPART_WORK, { s with depart_home := some text },
      "Home departure time saved. Now please send your departure time from Work to Home in 24-hr format (HH:MM).",
      true, false⟩
  | none =>
    ⟨.DEPART_HOME, s,
      "Invalid time format. Please send the time as HH:MM (e.g., 08:30).",
      false, false⟩

/-- `depart_work_time` (`src/main.py` lines 233-246): symmetric; on success it
also triggers `schedule_notifications` and ends the conversation. -/
def depart_work_time (text : String) (s : Settings) : StepOut :=
  match parseHHMM text with
  | some _ =>
    ⟨.ENDED, { s with depart_work := some text },
      "Work departure time saved! Your daily notifications will be scheduled automatically.",
      true, true⟩
  | none =>
    ⟨.DEPART_WORK, s,
      "Invalid time format. Please send the time as HH:MM (e.g., 18:00).",
      false, false⟩

/-- A complete settings record as produced by a full setup run (used as the
concrete evaluation point throughout). -/
def s0 : Settings :=
  { home_lat := some 1
    home_lon := some 2
    home_address := some "1,2"
    chat_id := some 42
    work_lat := some 3
    work_lon := some 4
    work_address := some "3,4"
    depart_home := some "08:00"
    depart_work := some "18:00" }

/-! ### Helper lemmas -/

/-- Every in-range zero-padded clock label round-trips through the parser. -/
lemma parse_fmt_valid : ∀ h < 24, ∀ m < 60, parseHHMM (fmtHHMM h m) = some (h, m) := by
  decide

/-- Unfolded form of `rollForward`. -/
lemma rollForward_eq (now tod : Nat) :
    rollForward now tod =
      if now / daySecs * daySecs + tod < now then now / daySecs * daySecs + tod + daySecs
      else now / daySecs * daySecs + tod := rfl

/-- A list prefix-checks against itself followed by anything. -/
lemma isPrefixCheck_self_append (p t : List Char) : isPrefixCheck p (p ++ t) = true := by
  induction p with
  | nil => rfl
  | cons a as ih => simp [isPrefixCheck, ih]

/-- Peeling a common prefix off both arguments of `isPrefixCheck`. -/
lemma isPrefixCheck_append_left (a p t : List Char) :
    isPrefixCheck (a ++ p) (a ++ t) = isPrefixCheck p t := by
  induction a with
  | nil => rfl
  | cons x xs ih => simp [isPrefixCheck, ih]

/-! ### Claim theorems -/

/-- C1: the code never re-arms a fired slot.  Evaluating the code at the
failing input: scheduling from the complete record `s0` at `now = 0` yields
the four one-shot jobs; after the `home_departure` job fires, its slot holds
no pending job at all — in particular none at the previous fire time plus 24
hours (`28800 + daySecs`) — contradicting the claim that each slot re-arms
daily. -/
theorem c1_no_rearm_eval :
    schedule_notifications 0 s0 =
      some [⟨"home_departure", 28800⟩, ⟨"home_pre_departure", 27000⟩,
            ⟨"work_departure", 64800⟩, ⟨"work_pre_departure", 63000⟩] ∧
    fire [⟨"home_departure", 28800⟩, ⟨"home_pre_departure", 27000⟩,
          ⟨"work_departure", 64800⟩, ⟨"work_pre_departure", 63000⟩] "home_departure" =
      [⟨"home_pre_departure", 27000⟩, ⟨"work_departure", 64800⟩,
       ⟨"work_pre_departure", 63000⟩] ∧
    (fire [⟨"home_departure", 28800⟩, ⟨"home_pre_departure", 27000⟩,
           ⟨"work_departure", 64800⟩, ⟨"work_pre_departure", 63000⟩]
        "home_departure").countP (fun j => j.name == "home_departure") = 0 ∧
    (fire [⟨"home_departure", 28800⟩, ⟨"home_pre_departure", 27000⟩,
           ⟨"work_departure", 64800⟩, ⟨"work_pre_departure", 63000⟩]
        "home_departure").countP (fun j => j.runDate == 28800 + daySecs) = 0 := by
  decide

/-- C2: a second `schedule_notifications` call does not replace the pending
jobs — it builds and starts a second `BackgroundScheduler` while the first
keeps running, so each slot ends up with two pending timers.  Evaluating the
code: two rebuilds from the complete record `s0` at `now = 0` leave two live
schedulers with identical job lists, and the `home_departure` slot has two
pending jobs across them. -/
theorem c2_duplicate_jobs_eval :
    ((rebuild [] 0 s0).bind fun st => rebuild st 0 s0) =
      some [[⟨"home_departure", 28800⟩, ⟨"home_pre_departure", 27000⟩,
             ⟨"work_departure", 64800⟩, ⟨"work_pre_departure", 63000⟩],
            [⟨"home_departure", 28800⟩, ⟨"home_pre_departure", 27000⟩,
             ⟨"work_departure", 64800⟩, ⟨"work_pre_departure", 63000⟩]] ∧
    (((rebuild [] 0 s0).bind fun st => rebuild st 0 s0).map fun st =>
        st.flatten.countP (fun j => j.name == "home_departure")) = some 2 := by
  decide

/-- C3 counterexample: starting the process over a durable store holding the
complete record `s0` restores the settings but arms no notification job at
all, refuting the claim that the record's daily jobs are re-armed across a
restart without redoing setup. -/
theorem c3_counterexample :
    (main_startup (some s0)).1 = s0 ∧
    ¬ ∃ sch ∈ (main_startup (some s0)).2, ∃ j, j ∈ sch ∧ j.name = "home_departure" := by
  refine ⟨rfl, ?_⟩
  rintro ⟨sch, hsch, -⟩
  simp [main_startup] at hsch

/-- C3 (amended): at startup the durable record is loaded — an empty store
yields the empty settings and no active jobs, and a previously committed
record is restored verbatim, but no jobs are armed either way; the restored
record is sufficient to schedule the four jobs once `schedule_notifications`
is next triggered (which only happens when setup completes again). -/
theorem c3_startup_loads :
    main_startup none = (emptySettings, []) ∧
    (∀ s, main_startup (some s) = (s, [])) ∧
    (∀ store, (main_startup store).2 = []) ∧
    schedule_notifications 0 (main_startup (some s0)).1 =
      some [⟨"home_departure", 28800⟩, ⟨"home_pre_departure", 27000⟩,
            ⟨"work_departure", 64800⟩, ⟨"work_pre_departure", 63000⟩] :=
  ⟨rfl, fun _ => rfl, fun _ => rfl, by decide⟩

/-- C4 counterexample: at `now = 86400` (exactly midnight) with stored
time-of-day `00:00`, the computed `fireAt = 86400` satisfies `fireAt ≤ now`,
yet the code schedules it at `fireAt` itself (the comparison on line 101 is
strict), not at `fireAt + 24h` as the claim requires. -/
theorem c4_counterexample :
    86400 / daySecs * daySecs + 0 ≤ 86400 ∧
    rollForward 86400 0 ≠ 86400 / daySecs * daySecs + 0 + daySecs := by
  decide

/-- C4 (amended): the roll-forward law with a strict boundary — if the
computed `fireAt` is strictly before `now` the effective fire time is
`fireAt + 24h`, if `fireAt` is at or after `now` it is `fireAt` exactly, and
the shift is never more than one day. -/
theorem c4_roll_forward (now todSec : Nat) :
    (now / daySecs * daySecs + todSec < now →
      rollForward now todSec = now / daySecs * daySecs + todSec + daySecs) ∧
    (now ≤ now / daySecs * daySecs + todSec →
      rollForward now todSec = now / daySecs * daySecs + todSec) ∧
    rollForward now todSec ≤ now / daySecs * daySecs + todSec + daySecs := by
  rw [rollForward_eq]
  refine ⟨fun h => if_pos h, fun h => if_neg (by omega), ?_⟩
  split <;> omega

/-- Witness for `c4_roll_forward` at concrete instants: one instant past the
stored time (rolls one day) and one before it (no roll). -/
theorem c4_roll_forward_witness :
    rollForward 117000 28800 = 117000 / daySecs * daySecs + 28800 + daySecs ∧
    rollForward 27000 28800 = 27000 / daySecs * daySecs + 28800 :=
  ⟨(c4_roll_forward 117000 28800).1 (by decide),
   (c4_roll_forward 27000 28800).2.1 (by decide)⟩

/-- C5: whenever a leg's departure string is set and parses as `(h, m)`, the
scheduler's first two jobs are the departure job at the rolled-forward stored
time and the preview job at the rolled-forward stored time minus 30 minutes
(wrapping modulo one day), each rolled independently; and in the spec's
scenario — `departHome = 08:00` evaluated at `08:30` on any day `D` — the
departure job lands on day `D+1` at `08:00` and the preview job on day `D+1`
at `07:30`. -/
theorem c5_preview_independent :
    (∀ now s str h m jobs,
        s.depart_home = some str →
        parseHHMM str = some (h, m) →
        schedule_notifications now s = some jobs →
        jobs.take 2 =
          [⟨"home_departure", rollForward now (h * 3600 + m * 60)⟩,
           ⟨"home_pre_departure",
             rollForward now ((h * 60 + m + 1440 - 30) % 1440 * 60)⟩]) ∧
    (∀ D, schedule_notifications (D * daySecs + 30600) { depart_home := some "08:00" } =
        some [⟨"home_departure", (D + 1) * daySecs + 28800⟩,
              ⟨"home_pre_departure", (D + 1) * daySecs + 27000⟩]) := by
  constructor
  · intro now s str h m jobs hs hp hsch
    have hptlt : (h * 60 + m + 1440 - 30) % 1440 < 1440 := Nat.mod_lt _ (by norm_num)
    have hparse2 : parseHHMM (previewStr (h, m)) =
        some ((h * 60 + m + 1440 - 30) % 1440 / 60, (h * 60 + m + 1440 - 30) % 1440 % 60) := by
      unfold previewStr
      exact parse_fmt_valid _ (by omega) _ (by omega)
    have hadd1 : add_job now str "home_departure" =
        some ⟨"home_departure", rollForward now (h * 3600 + m * 60)⟩ := by
      simp [add_job, hp]
    have hadd2 : add_job now (previewStr (h, m)) "home_pre_departure" =
        some ⟨"home_pre_departure",
          rollForward now ((h * 60 + m + 1440 - 30) % 1440 * 60)⟩ := by
      have htod : (h * 60 + m + 1440 - 30) % 1440 / 60 * 3600
          + (h * 60 + m + 1440 - 30) % 1440 % 60 * 60
          = (h * 60 + m + 1440 - 30) % 1440 * 60 := by omega
      simp only [add_job, hparse2, Option.map_some']
      rw [htod]
    have hleg : legJobs now s.depart_home "home_departure" "home_pre_departure" =
        some [⟨"home_departure", rollForward now (h * 3600 + m * 60)⟩,
              ⟨"home_pre_departure",
                rollForward now ((h * 60 + m + 1440 - 30) % 1440 * 60)⟩] := by
      rw [hs]
      simp only [legJobs]
      rw [hp]
      simp [hadd1, hadd2]
    unfold schedule_notifications at hsch
    rw [hleg] at hsch
    cases hw : legJobs now s.depart_work "work_departure" "work_pre_departure" with
    | none => rw [hw] at hsch; simp at hsch
    | some wj =>
      rw [hw] at hsch
      simp only [Option.some.injEq] at hsch
      subst hsch
      rfl
  · intro D
    have h1 : rollForward (D * daySecs + 30600) 28800 = (D + 1) * daySecs + 28800 := by
      rw [rollForward_eq]
      have hd : (D * daySecs + 30600) / daySecs = D := by unfold daySecs; omega
      rw [hd, if_pos (by unfold daySecs; omega)]
      unfold daySecs
      omega
    have h2 : rollForward (D * daySecs + 30600) 27000 = (D + 1) * daySecs + 27000 := by
      rw [rollForward_eq]
      have hd : (D * daySecs + 30600) / daySecs = D := by unfold daySecs; omega
      rw [hd, if_pos (by unfold daySecs; omega)]
      unfold daySecs
      omega
    have hp : parseHHMM "08:00" = some (8, 0) := by decide
    have hpre : previewStr (8, 0) = "07:30" := by decide
    have hp2 : parseHHMM "07:30" = some (7, 30) := by decide
    unfold schedule_notifications legJobs
    simp only [hp]
    simp only [add_job, hp, hpre, hp2, Option.map_some', Option.toList_some]
    norm_num [h1, h2]

/-- Witness for `c5_preview_independent`, instantiating the general part at
`now = 30600` (08:30 on day 0) with the stored string `"08:00"`. -/
theorem c5_preview_independent_witness :
    ([⟨"home_departure", 115200⟩, ⟨"home_pre_departure", 113400⟩] : List Job).take 2 =
      [⟨"home_departure", rollForward 30600 (8 * 3600 + 0 * 60)⟩,
       ⟨"home_pre_departure", rollForward 30600 ((8 * 60 + 0 + 1440 - 30) % 1440 * 60)⟩] :=
  c5_preview_independent.1 30600 { depart_home := some "08:00" } "08:00" 8 0
    [⟨"home_departure", 115200⟩, ⟨"home_pre_departure", 113400⟩]
    rfl (by decide) (by decide)

/-! Stepping lemmas for the two retry loops. -/

lemma runWeather_fail_step (resp : Nat → WAttempt) (a r : Nat)
    (h : wFail (resp a) = true) :
    runWeather resp a (r + 1) = runWeather resp (a + 1) r := by
  cases hr : resp a with
  | ok t hh d => rw [hr] at h; exact absurd h (by simp [wFail])
  | bad => simp only [runWeather, hr]
  | exn => simp only [runWeather, hr]

lemma runWeather_ok_step (resp : Nat → WAttempt) (a r : Nat) (t hu : Int) (d : String)
    (hr : resp a = .ok t hu d) :
    runWeather resp a (r + 1) = ⟨some t, some hu, some (rainPctOf d), d⟩ := by
  simp only [runWeather, hr]

lemma runWeather_congr (resp resp' : Nat → WAttempt) :
    ∀ r a, (∀ i, a ≤ i → i < a + r → resp i = resp' i) →
      runWeather resp a r = runWeather resp' a r := by
  intro r
  induction r with
  | zero => intro a _; rfl
  | succ n ih =>
    intro a ha
    have h0 : resp a = resp' a := ha a (Nat.le_refl _) (by omega)
    cases hr : resp a with
    | ok t hu d =>
      rw [runWeather_ok_step _ _ _ _ _ _ hr,
          runWeather_ok_step _ _ _ _ _ _ (h0.symm.trans hr)]
    | bad =>
      rw [runWeather_fail_step _ _ n (by simp [wFail, hr]),
          runWeather_fail_step _ _ n (by simp [wFail, ← h0, hr])]
      exact ih (a + 1) fun i hi1 hi2 => ha i (by omega) (by omega)
    | exn =>
      rw [runWeather_fail_step _ _ n (by simp [wFail, hr]),
          runWeather_fail_step _ _ n (by simp [wFail, ← h0, hr])]
      exact ih (a + 1) fun i hi1 hi2 => ha i (by omega) (by omega)

lemma runTravel_fail_step (resp : Nat → TAttempt) (a r : Nat)
    (h : tFail (resp a) = true) :
    runTravel resp a (r + 1) = runTravel resp (a + 1) r := by
  cases hr : resp a with
  | ok dur => rw [hr] at h; exact absurd h (by simp [tFail])
  | topBad => simp only [runTravel, hr]
  | elemBad => simp only [runTravel, hr]
  | exn => simp only [runTravel, hr]

lemma runTravel_ok_step (resp : Nat → TAttempt) (a r dur : Nat)
    (hr : resp a = .ok dur) :
    runTravel resp a (r + 1) = some (dur / 60) := by
  simp only [runTravel, hr]

lemma runTravel_congr (resp resp' : Nat → TAttempt) :
    ∀ r a, (∀ i, a ≤ i → i < a + r → resp i = resp' i) →
      runTravel resp a r = runTravel resp' a r := by
  intro r
  induction r with
  | zero => intro a _; rfl
  | succ n ih =>
    intro a ha
    have h0 : resp a = resp' a := ha a (Nat.le_refl _) (by omega)
    cases hr : resp a with
    | ok dur =>
      rw [runTravel_ok_step _ _ _ _ hr, runTravel_ok_step _ _ _ _ (h0.symm.trans hr)]
    | topBad =>
      rw [runTravel_fail_step _ _ n (by simp [tFail, hr]),
          runTravel_fail_step _ _ n (by simp [tFail, ← h0, hr])]
      exact ih (a + 1) fun i hi1 hi2 => ha i (by omega) (by omega)
    | elemBad =>
      rw [runTravel_fail_step _ _ n (by simp [tFail, hr]),
          runTravel_fail_step _ _ n (by simp [tFail, ← h0, hr])]
      exact ih (a + 1) fun i hi1 hi2 => ha i (by omega) (by omega)
    | exn =>
      rw [runTravel_fail_step _ _ n (by simp [tFail, hr]),
          runTravel_fail_step _ _ n (by simp [tFail, ← h0, hr])]
      exact ih (a + 1) fun i hi1 hi2 => ha i (by omega) (by omega)

/-- C6: both external clients make at most 3 attempts and degrade to their
sentinel instead of raising.  (i) If the first three weather attempts all
fail — non-200 status or exception alike — `get_weather` returns the
`(None, None, None, "Unable to fetch weather data")` sentinel, a total value
with no numeric fields.  (ii) Likewise `get_travel_time` returns `None`
after three failed attempts.  (iii)/(iv) Each client's result depends only on
the first three attempt outcomes, so no fourth attempt is ever consulted. -/
theorem c6_retry_policy :
    (∀ resp : Nat → WAttempt, (∀ i, i < 3 → wFail (resp i) = true) →
        get_weather resp = ⟨none, none, none, "Unable to fetch weather data"⟩) ∧
    (∀ resp : Nat → TAttempt, (∀ i, i < 3 → tFail (resp i) = true) →
        get_travel_time resp = none) ∧
    (∀ resp resp' : Nat → WAttempt, (∀ i, i < 3 → resp i = resp' i) →
        get_weather resp = get_weather resp') ∧
    (∀ resp resp' : Nat → TAttempt, (∀ i, i < 3 → resp i = resp' i) →
        get_travel_time resp = get_travel_time resp') := by
  refine ⟨?_, ?_, ?_, ?_⟩
  · intro resp hf
    unfold get_weather
    rw [show (3 : Nat) = 2 + 1 from rfl, runWeather_fail_step _ _ _ (hf 0 (by omega)),
        show (2 : Nat) = 1 + 1 from rfl, runWeather_fail_step _ _ _ (hf 1 (by omega)),
        show (1 : Nat) = 0 + 1 from rfl, runWeather_fail_step _ _ _ (hf 2 (by omega))]
    rfl
  · intro resp hf
    unfold get_travel_time
    rw [show (3 : Nat) = 2 + 1 from rfl, runTravel_fail_step _ _ _ (hf 0 (by omega)),
        show (2 : Nat) = 1 + 1 from rfl, runTravel_fail_step _ _ _ (hf 1 (by omega)),
        show (1 : Nat) = 0 + 1 from rfl, runTravel_fail_step _ _ _ (hf 2 (by omega))]
    rfl
  · intro resp resp' ha
    exact runWeather_congr resp resp' 3 0 fun i _ hi => ha i (by omega)
  · intro resp resp' ha
    exact runTravel_congr resp resp' 3 0 fun i _ hi => ha i (by omega)

/-- Witness for `c6_retry_policy`: all-exception and all-bad-status providers
yield the sentinels, and changing the provider from the fourth attempt on
does not change either result. -/
theorem c6_retry_policy_witness :
    get_weather (fun _ => .exn) = ⟨none, none, none, "Unable to fetch weather data"⟩ ∧
    get_travel_time (fun _ => .topBad) = none ∧
    get_weather (fun _ => .bad) = get_weather (fun i => if i < 3 then .bad else .exn) ∧
    get_travel_time (fun _ => .exn) =
      get_travel_time (fun i => if i < 3 then .exn else .ok 600) :=
  ⟨c6_retry_policy.1 _ (fun _ _ => rfl),
   c6_retry_policy.2.1 _ (fun _ _ => rfl),
   c6_retry_policy.2.2.1 _ _ (fun i hi => by simp [hi]),
   c6_retry_policy.2.2.2 _ _ (fun i hi => by simp [hi])⟩

/-- A string prefix-checks against its own append. -/
lemma prefix_of_append (p t : String) : isPrefixCheck p.data (p ++ t).data = true := by
  rw [String.data_append]
  exact isPrefixCheck_self_append _ _

/-- A string prefix-checks against its own double append. -/
lemma prefix_of_append2 (p a b : String) :
    isPrefixCheck p.data (p ++ a ++ b).data = true := by
  rw [String.data_append, String.data_append, List.append_assoc]
  exact isPrefixCheck_self_append _ _

/-- C7: at each departure-time setup step, a string the `"%H:%M"` parser
accepts is stored verbatim under the leg's key, persisted, and the
conversation advances (ending and triggering scheduling at the work step);
the stored text is later displayed verbatim at the head of the preview
message.  Any string the parser rejects leaves the state and the settings
unchanged, persists nothing, and produces the format-error prompt.  All
in-range zero-padded clock labels parse back to their value, unpadded
variants are accepted, and representative malformed strings are rejected. -/
theorem c7_time_step :
    (∀ text s hm, parseHHMM text = some hm →
        depart_home_time text s =
          ⟨.DEPART_WORK, { s with depart_home := some text },
            "Home departure time saved. Now please send your departure time from Work to Home in 24-hr format (HH:MM).",
            true, false⟩ ∧
        (∀ minutes w, isPrefixCheck ("Plan to leave by " ++ text ++ " to Work.\n").data
            (job_pre_departure_home_msg text minutes w).data = true)) ∧
    (∀ text s, parseHHMM text = none →
        depart_home_time text s =
          ⟨.DEPART_HOME, s,
            "Invalid time format. Please send the time as HH:MM (e.g., 08:30).",
            false, false⟩) ∧
    (∀ text s hm, parseHHMM text = some hm →
        depart_work_time text s =
          ⟨.ENDED, { s with depart_work := some text },
            "Work departure time saved! Your daily notifications will be scheduled automatically.",
            true, true⟩) ∧
    (∀ text s, parseHHMM text = none →
        depart_work_time text s =
          ⟨.DEPART_WORK, s,
            "Invalid time format. Please send the time as HH:MM (e.g., 18:00).",
            false, false⟩) ∧
    (∀ h < 24, ∀ m < 60, parseHHMM (fmtHHMM h m) = some (h, m)) ∧
    (parseHHMM "8:30" = some (8, 30) ∧ parseHHMM "8:3" = some (8, 3) ∧
     parseHHMM "24:00" = none ∧ parseHHMM "7:60" = none ∧ parseHHMM "ab" = none ∧
     parseHHMM "08:30 " = none ∧ parseHHMM "" = none) := by
  refine ⟨?_, ?_, ?_, ?_, parse_fmt_valid, by decide⟩
  · intro text s hm hp
    refine ⟨by unfold depart_home_time; rw [hp], ?_⟩
    intro minutes w
    obtain ⟨wt, whu, wr, wd⟩ := w
    cases wt <;>
      simp [job_pre_departure_home_msg, String.data_append, List.append_assoc,
        isPrefixCheck_append_left, isPrefixCheck_self_append, isPrefixCheck]
  · intro text s hp
    unfold depart_home_time
    rw [hp]
  · intro text s hm hp
    unfold depart_work_time
    rw [hp]
  · intro text s hp
    unfold depart_work_time
    rw [hp]

/-- Witness for `c7_time_step`: the valid input `"08:30"` is stored and
advances the state, the invalid input `"25:99"` is rejected in place. -/
theorem c7_time_step_witness :
    depart_home_time "08:30" emptySettings =
      ⟨.DEPART_WORK, { emptySettings with depart_home := some "08:30" },
        "Home departure time saved. Now please send your departure time from Work to Home in 24-hr format (HH:MM).",
        true, false⟩ ∧
    depart_home_time "25:99" emptySettings =
      ⟨.DEPART_HOME, emptySettings,
        "Invalid time format. Please send the time as HH:MM (e.g., 08:30).",
        false, false⟩ :=
  ⟨(c7_time_step.1 "08:30" emptySettings (8, 30) (by decide)).1,
   c7_time_step.2.1 "25:99" emptySettings (by decide)⟩

/-- C8 counterexample: a preview firing in which TravelTime returned the
sentinel and weather succeeded — the composed message neither renders
"unknown" anywhere nor omits the numeric travel-time phrase; it interpolates
the Python literal `None` into it instead. -/
theorem c8_counterexample :
    strContains (job_pre_departure_home_msg "08:00" none
        ⟨some 20, some 50, some 0, "clear sky"⟩) "unknown" = false ∧
    strContains (job_pre_departure_home_msg "08:00" none
        ⟨some 20, some 50, some 0, "clear sky"⟩) "Predicted travel time:" = true ∧
    strContains (job_pre_departure_home_msg "08:00" none
        ⟨some 20, some 50, some 0, "clear sky"⟩) "None" = true := by
  decide

/-- C8 (amended): when TravelTime is unavailable the departure message
renders the arrival time as "unknown" but interpolates `None` into the
travel-time phrase, and the preview message interpolates `None` into its
numeric phrase; in both templates the weather clause is still rendered
independently from the Weather result — the full weather line (plus the rain
tip when positive) when data is present, the literal "Weather data
unavailable." wording when it is not. -/
theorem c8_unavailable_render :
    (∀ nowMin desc, job_departure_home_msg nowMin none ⟨none, none, none, desc⟩ =
        "Time to go! Expect a None minute drive to Work. Arrival is expected at unknown.\n"
          ++ "Weather data unavailable.") ∧
    (∀ nowMin t hu r d, job_departure_home_msg nowMin none ⟨some t, some hu, some r, d⟩ =
        "Time to go! Expect a None minute drive to Work. Arrival is expected at unknown.\n"
          ++ ("Weather: " ++ toString t ++ "°C, " ++ d ++ ", Humidity: " ++ toString hu
              ++ "%, Chance of rain: " ++ toString r ++ "%.")
          ++ (if 0 < r then " Tip: Wear a waterproof jacket/umbrella." else "")) ∧
    (∀ label desc, job_pre_departure_home_msg label none ⟨none, none, none, desc⟩ =
        "Plan to leave by " ++ label ++ " to Work.\n"
          ++ "Predicted travel time: None minutes.\n"
          ++ "\nWeather data unavailable.") ∧
    (∀ label t hu r d, job_pre_departure_home_msg label none ⟨some t, some hu, some r, d⟩ =
        "Plan to leave by " ++ label ++ " to Work.\n"
          ++ "Predicted travel time: None minutes.\n"
          ++ ("Weather: " ++ toString t ++ "°C, " ++ d ++ ", Humidity: " ++ toString hu
              ++ "%, Chance of rain: " ++ toString r ++ "%.")
          ++ (if 0 < r then "\nRemember to bring waterproof gear." else "")) := by
  refine ⟨fun nowMin desc => rfl, ?_, fun label desc => ?_, ?_⟩
  · intro nowMin t hu r d
    by_cases hr : 0 < r <;>
      simp [job_departure_home_msg, pyTruthy, pyOptNat, pyOptInt, rainPositive, hr]
  · simp [job_pre_departure_home_msg, pyOptNat, String.append_assoc]
  · intro label t hu r d
    by_cases hr : 0 < r <;>
      simp [job_pre_departure_home_msg, pyOptNat, pyOptInt, rainPositive, hr,
        String.append_assoc]

/-- C9: with weather data present, the composed departure message is the
weather-bearing text with the waterproof-gear tip appended exactly when the
rain percentage is positive; the rain percentage produced by a successful
`get_weather` attempt is 100 when the description mentions "rain"
case-insensitively and 0 otherwise; and concretely a 0% message lacks the
tip while a 100% message contains it. -/
theorem c9_rain_reminder :
    (∀ nowMin minutes t hu r d,
        job_departure_home_msg nowMin minutes ⟨some t, some hu, some r, d⟩ =
          ("Time to go! Expect a " ++ pyOptNat minutes
              ++ " minute drive to Work. Arrival is expected at "
              ++ (if pyTruthy minutes then fmtClock (nowMin + minutes.getD 0) else "unknown")
              ++ ".\n"
            ++ ("Weather: " ++ toString t ++ "°C, " ++ d ++ ", Humidity: " ++ toString hu
                ++ "%, Chance of rain: " ++ toString r ++ "%."))
            ++ (if 0 < r then " Tip: Wear a waterproof jacket/umbrella." else "")) ∧
    (∀ (t hu : Int) (d : String) (rest : Nat → WAttempt),
        get_weather (fun i => match i with | 0 => .ok t hu d | j + 1 => rest j) =
          ⟨some t, some hu, some (if strContains (lowerStr d) "rain" then 100 else 0), d⟩) ∧
    (rainPctOf "light rain" = 100 ∧ rainPctOf "Rain showers" = 100 ∧
     rainPctOf "clear sky" = 0) ∧
    strContains (job_departure_home_msg 510 (some 25) ⟨some 18, some 60, some 0, "clear sky"⟩)
        "Tip: Wear a waterproof jacket/umbrella." = false ∧
    strContains (job_departure_home_msg 510 (some 25) ⟨some 18, some 60, some 100, "light rain"⟩)
        "Tip: Wear a waterproof jacket/umbrella." = true := by
  refine ⟨?_, fun t hu d rest => rfl, by decide, by decide, by decide⟩
  intro nowMin minutes t hu r d
  by_cases hr : 0 < r <;>
    simp [job_departure_home_msg, pyOptNat, pyOptInt, rainPositive, hr]

/-- C10: a successful zero-minute TravelTime result is rendered partly as if
the data were unavailable — both departure templates print the arrival time
as "unknown" (the `if minutes` truthiness guard treats `0` as absent) while
still interpolating `0` as the travel-time number. -/
theorem c10_zero_minutes (nowMin : Nat) (w : WeatherOut) :
    isPrefixCheck
      "Time to go! Expect a 0 minute drive to Work. Arrival is expected at unknown.\n".data
      (job_departure_home_msg nowMin (some 0) w).data = true ∧
    isPrefixCheck
      "Time to go! Expect a 0 minute drive to Home. Arrival is expected at unknown.\n".data
      (job_departure_work_msg nowMin (some 0) w).data = true := by
  obtain ⟨wt, whu, wr, wd⟩ := w
  cases wt with
  | none => exact ⟨prefix_of_append _ _, prefix_of_append _ _⟩
  | some t => exact ⟨prefix_of_append2 _ _ _, prefix_of_append2 _ _ _⟩

end TrafficBot
